import Mathlib

/-!
Shallow embedding of src/scraper.py (the Calendis slot scraper) and proofs
about its claims.

Modelling conventions, stated once:

* Python integers are Lean Int (or Nat where the source value is a count);
  Unix timestamps are Int, with the Python modulo operator mapped to Lean
  Int emod (both follow the sign of the divisor, so they agree).
* A Python value read out of a parsed-JSON dictionary is modelled by the
  inductive PyVal, and Python equality against the literal 1 by pyEqOne;
  in Python, True == 1 holds because bool is a subtype of int.
* Network responses are supplied by the environment: a FetchEnv record
  holds the response to the first availability request, the outcome of a
  login attempt, and the response to the retried request.  Side effects
  (HTTP requests issued, login attempts, persisted-token updates) are
  recorded as an explicit event list so that counting and ordering
  properties can be stated.
* The login helper login_to_calendis is modelled by its observable
  outcome only (a new session string, or an exception); the persistence
  helper update_github_env_variable is modelled as an event and assumed
  to succeed, since no claim concerns its failure.
* Wall-clock times of day are seconds since midnight; Python
  datetime.time comparison on hour/minute/second values coincides with
  comparison of seconds-of-day.
-/

set_option autoImplicit false

namespace Scraper

/-- Python value as found in a parsed-JSON dictionary field: an int, a
bool, or a string.  Only these shapes are needed by the claims. -/
inductive PyVal where
  | pint (n : Int)
  | pbool (b : Bool)
  | pstr (s : String)
  deriving DecidableEq

/-- Python test for a dictionary field being equal to the integer 1, as in
the source expressions slot.get with is_available == 1 and data.get with
success != 1.  A missing key yields Python None, and None == 1 is False;
a Python bool compares as its integer value, so True == 1 is True; a
string never equals an int. -/
def pyEqOne : Option PyVal → Bool
  | none => false
  | some (.pint n) => n == 1
  | some (.pbool b) => b
  | some (.pstr _) => false

/-- Slot dictionary from the availability response.  The time key is
always read with slot bracket access (the claims only quantify over slots
that contain it), so it is a required field; is_available is read with
dict get and may be absent. -/
structure SlotDict where
  time : Int
  is_available : Option PyVal
  deriving DecidableEq

/-- Configured time window, as produced by parse_time_str on the two
TIME_INTERVAL environment values: both bounds as seconds since midnight. -/
structure TimeWindow where
  startSec : Nat
  endSec : Nat
  deriving DecidableEq

/-- Embedding of is_slot_in_time_interval: the slot timestamp is converted
to a UTC time of day (seconds modulo one day) and compared inclusively
against both window bounds. -/
def is_slot_in_time_interval (w : TimeWindow) (slot_timestamp : Int) : Bool :=
  decide ((w.startSec : Int) ≤ slot_timestamp % 86400) &&
    decide (slot_timestamp % 86400 ≤ (w.endSec : Int))

/-- Filter of check_slots_for_date line 247: keep a slot when it lies in
the time interval and its is_available field equals 1 under Python
equality. -/
def filterSlots (w : TimeWindow) (slots : List SlotDict) : List SlotDict :=
  slots.filter (fun s => is_slot_in_time_interval w s.time && pyEqOne s.is_available)

/-- Embedding of the final expression of check_slots_for_date: a nonempty
filtered list is returned as is, an empty one is reported as Python None. -/
def reportSlots (l : List SlotDict) : Option (List SlotDict) :=
  if l.isEmpty then none else some l

/-- Parsed JSON body of an availability response: the success field (read
with dict get, hence optional) and the available_slots list (dict get with
default empty list). -/
structure ApiData where
  success : Option PyVal
  available_slots : List SlotDict
  deriving DecidableEq

/-- Observable part of an HTTP response to the availability request: the
status code, whether the lowercased body contains the substring
auth_error, and the parsed JSON body (none when response.json() raises). -/
structure HttpResponse where
  status : Nat
  hasAuthErrorText : Bool
  json : Option ApiData
  deriving DecidableEq

/-- Expired-session classification of check_slots_for_date line 224:
status code 401 or 500, or the auth_error substring in the body. -/
def isAuthFailure (r : HttpResponse) : Bool :=
  (r.status == 401 || r.status == 500) || r.hasAuthErrorText

/-- Condition under which requests raise_for_status raises: any 4xx or
5xx status code. -/
def raiseForStatusFails (r : HttpResponse) : Bool :=
  decide (400 ≤ r.status) && decide (r.status < 600)

/-- Exceptions that can escape check_slots_for_date (all re-raised by its
except block). -/
inductive FetchError where
  | loginFailed
  | httpError (status : Nat)
  | jsonError
  deriving DecidableEq

/-- Side effects performed by one run of check_slots_for_date, in program
order: an availability GET request carrying the given session cookie, a
login attempt, and a persisted session-token update via the GitHub
variable endpoint. -/
inductive FetchEvent where
  | slotsRequest (session : String)
  | loginAttempt
  | persistSession (value : String)
  deriving DecidableEq

/-- Environment of one check_slots_for_date run: the response the remote
returns to the first request, the outcome of login_to_calendis if it is
called (some new session token, or none when login raises), and the
response to the retried request if it is issued. -/
structure FetchEnv where
  firstResponse : HttpResponse
  loginResult : Option String
  retryResponse : HttpResponse
  deriving DecidableEq

deriving instance DecidableEq for Except

/-- Outcome of one check_slots_for_date run: the returned value or the
escaped exception, the event list in program order, and the value of the
global CLIENT_SESSION after the run. -/
structure FetchOut where
  result : Except FetchError (Option (List SlotDict))
  events : List FetchEvent
  finalSession : String
  deriving DecidableEq

/-- Shared tail of check_slots_for_date (lines 235 to 249): call
raise_for_status on the selected response, parse its JSON, report no
slots when the success field differs from 1, otherwise filter and report
the slot list. -/
def processResponse (w : TimeWindow) (r : HttpResponse) :
    Except FetchError (Option (List SlotDict)) :=
  if raiseForStatusFails r then .error (.httpError r.status)
  else
    match r.json with
    | none => .error .jsonError
    | some data =>
      if pyEqOne data.success then .ok (reportSlots (filterSlots w data.available_slots))
      else .ok none

/-- Embedding of check_slots_for_date (lines 188 to 249).  The first
request is issued with the current session.  When the response is
classified as an auth failure, login_to_calendis is called: if it raises
the exception propagates; otherwise the global session is replaced, the
request is retried with the new cookie, and only then is the renewed
token persisted to the GitHub variable, after which the retried response
is processed.  Otherwise the first response is processed directly. -/
def check_slots_for_date (w : TimeWindow) (session : String) (env : FetchEnv) : FetchOut :=
  if isAuthFailure env.firstResponse then
    match env.loginResult with
    | none =>
        { result := .error .loginFailed
          events := [.slotsRequest session, .loginAttempt]
          finalSession := session }
    | some tok =>
        { result := processResponse w env.retryResponse
          events := [.slotsRequest session, .loginAttempt, .slotsRequest tok,
                     .persistSession tok]
          finalSession := tok }
  else
    { result := processResponse w env.firstResponse
      events := [.slotsRequest session]
      finalSession := session }

/-- Test for an availability-request event. -/
def isSlotsRequestEvent : FetchEvent → Bool
  | .slotsRequest _ => true
  | _ => false

/-- Test for a persisted session-token update event. -/
def isPersistEvent : FetchEvent → Bool
  | .persistSession _ => true
  | _ => false

/-- Number of availability requests issued during a run. -/
def countSlotsRequests (evs : List FetchEvent) : Nat :=
  (evs.filter isSlotsRequestEvent).length

/-- Number of persisted session-token updates during a run. -/
def countPersists (evs : List FetchEvent) : Nat :=
  (evs.filter isPersistEvent).length

/-- Positions of availability-request events in the event list. -/
def requestIndices (evs : List FetchEvent) : List Nat :=
  (evs.enum.filter (fun p => isSlotsRequestEvent p.2)).map (fun p => p.1)

/-- Positions of persisted session-token updates in the event list. -/
def persistIndices (evs : List FetchEvent) : List Nat :=
  (evs.enum.filter (fun p => isPersistEvent p.2)).map (fun p => p.1)

/-- Formalisation of the temporal claim that the external persistence of
the renewed token happens before the retry request: some persistence
event occurs at a position strictly before the second availability
request. -/
def persistPrecedesRetry (evs : List FetchEvent) : Bool :=
  match (requestIndices evs)[1]? with
  | some r => (persistIndices evs).any (fun p => p < r)
  | none => false

/-- One entry of the comma-separated CHECK_SPECIFIC_DAYS list, abstracted
at the boundary of the standard library call datetime.strptime with the
pattern for an ISO date: either parsing succeeds, carrying the parsed
calendar day as a number of days since the Unix epoch, or strptime raises
ValueError for a malformed entry. -/
inductive DateEntry where
  | valid (days : Nat)
  | malformed
  deriving DecidableEq

/-- The CHECK_DAYS_AHEAD value, abstracted at the boundary of the Python
int constructor: a parsed integer, or a ValueError for a non-integer
string. -/
inductive DaysAheadEntry where
  | valid (n : Int)
  | invalid
  deriving DecidableEq

/-- Configuration and clock state read by get_dates_to_check.  A none in
the two option fields models an unset or empty environment variable
(falsy in the Python truthiness tests); todayDays is the current UTC
calendar day as days since the epoch; tzOffset is the UTC offset in
seconds of the local timezone of the machine, which Python uses when
calling timestamp() on a naive datetime. -/
structure DatesConfig where
  checkSpecificDays : Option (List DateEntry)
  checkDaysAhead : Option DaysAheadEntry
  todayDays : Nat
  tzOffset : Int
  deriving DecidableEq

/-- Embedding of get_dates_to_check (lines 57 to 85).  Branch one: an
explicit date list; each entry that strptime parses is converted with
timestamp() on a naive datetime, which Python interprets as local wall
time, so the produced instant is local midnight, namely UTC midnight of
the parsed day minus the local UTC offset; malformed entries are logged
and skipped.  Branch two: a day count; the base instant comes from a
timezone-aware now(UTC) truncated to midnight, so it is exact UTC
midnight; a ValueError from int() is logged and leaves the accumulator
empty.  Branch three: today only, again exact UTC midnight. -/
def get_dates_to_check (cfg : DatesConfig) : List Int :=
  match cfg.checkSpecificDays with
  | some entries =>
      entries.filterMap (fun e =>
        match e with
        | .valid d => some ((86400 * d : Int) - cfg.tzOffset)
        | .malformed => none)
  | none =>
      match cfg.checkDaysAhead with
      | some (.valid n) =>
          (List.range n.toNat).map (fun i => (86400 * (cfg.todayDays + i) : Int))
      | some .invalid => []
      | none => [(86400 * cfg.todayDays : Int)]

/-- Outcome of the Telegram send as seen by send_telegram_notification:
a 200 response, a non-200 response, or a raised exception. -/
inductive SendOutcome where
  | ok
  | httpFail
  | exn
  deriving DecidableEq

/-- Embedding of send_telegram_notification (lines 97 to 112): the
function prints on a non-200 status and catches every exception from the
post call, so it always returns normally; the Bool records whether the
message was delivered. -/
def send_telegram_notification : SendOutcome → Bool
  | .ok => true
  | .httpFail => false
  | .exn => false

/-- Externally visible actions of main after aggregation: the Telegram
send (with its delivery outcome) and the disabling of the scraping flag
through the GitHub variable endpoint. -/
inductive MainEvent where
  | notify (delivered : Bool)
  | disableScraping
  deriving DecidableEq

/-- Result of the per-date loop of main (lines 258 to 263): the all_slots
association list in date order (or the exception that aborted the loop),
the number of availability requests issued, and the final session. -/
structure LoopOut where
  result : Except FetchError (List (Int × List SlotDict))
  queries : Nat
  finalSession : String
  deriving DecidableEq

/-- Embedding of the per-date loop of main: dates are processed
sequentially, each with the response environment the network supplies for
that position; an exception aborts the loop immediately; a date is added
to all_slots only when its returned slot list is truthy, that is neither
None nor empty. -/
def processDates (w : TimeWindow) (envOf : Nat → FetchEnv) :
    List Int → Nat → String → LoopOut
  | [], _, s => { result := .ok [], queries := 0, finalSession := s }
  | d :: rest, i, s =>
      let out := check_slots_for_date w s (envOf i)
      let q := countSlotsRequests out.events
      match out.result with
      | .error e => { result := .error e, queries := q, finalSession := out.finalSession }
      | .ok osl =>
          let lr := processDates w envOf rest (i + 1) out.finalSession
          { result :=
              lr.result.map (fun tail =>
                match osl with
                | some sl => if sl.isEmpty then tail else (d, sl) :: tail
                | none => tail)
            queries := q + lr.queries
            finalSession := lr.finalSession }

/-- Externally visible outcome of one main run: normal return or escaped
exception, the aggregated all_slots mapping, the number of availability
requests issued, and the notify and disable actions in program order. -/
structure MainOutcome where
  result : Except FetchError Unit
  aggregated : List (Int × List SlotDict)
  queries : Nat
  events : List MainEvent
  deriving DecidableEq

/-- Embedding of main (lines 251 to 284).  When scraping is disabled the
run exits at once.  Otherwise the dates are resolved, each is fetched in
order, and an exception aborts the run.  An empty all_slots ends the run
with no notification and no flag change.  Otherwise the message is sent
(best effort) and afterwards the scraping flag is always set to off.  The
message text itself is elided: no claim concerns its content. -/
def main (w : TimeWindow) (scrapingEnabled : Bool) (cfg : DatesConfig)
    (session0 : String) (envOf : Nat → FetchEnv) (send : SendOutcome) : MainOutcome :=
  if scrapingEnabled then
    let lo := processDates w envOf (get_dates_to_check cfg) 0 session0
    match lo.result with
    | .error e =>
        { result := .error e, aggregated := [], queries := lo.queries, events := [] }
    | .ok allSlots =>
        if allSlots.isEmpty then
          { result := .ok (), aggregated := allSlots, queries := lo.queries, events := [] }
        else
          { result := .ok (), aggregated := allSlots, queries := lo.queries
            events := [.notify (send_telegram_notification send), .disableScraping] }
  else
    { result := .ok (), aggregated := [], queries := 0, events := [] }

/-- Condition under which the shared response-processing tail answers no
slots: a non-error status and a parsed body whose success field differs
from 1 or whose slot list filters to empty. -/
def processedAsNoSlots (w : TimeWindow) (r : HttpResponse) : Bool :=
  !raiseForStatusFails r &&
    (match r.json with
     | none => false
     | some data =>
         !pyEqOne data.success || (filterSlots w data.available_slots).isEmpty)

/-- Condition on one date's response environment under which
check_slots_for_date answers no slots whatever the session is: either the
first response is not an auth failure and processes to no slots, or it is
an auth failure, the re-login succeeds, and the retried response
processes to no slots. -/
def envYieldsNoSlots (w : TimeWindow) (env : FetchEnv) : Bool :=
  if isAuthFailure env.firstResponse then
    env.loginResult.isSome && processedAsNoSlots w env.retryResponse
  else
    processedAsNoSlots w env.firstResponse

/-- Fixture: the widest possible time window, zero seconds to the last
second of the day. -/
def wideWindow : TimeWindow := ⟨0, 86399⟩

/-- Fixture: an available slot at 01:00 UTC. -/
def okSlot : SlotDict := ⟨3600, some (.pint 1)⟩

/-- Fixture: a success envelope containing one available slot. -/
def successResponse : HttpResponse :=
  ⟨200, false, some ⟨some (.pint 1), [okSlot]⟩⟩

/-- Fixture: a success-0 envelope with no slots. -/
def noSlotsResponse : HttpResponse := ⟨200, false, some ⟨some (.pint 0), []⟩⟩

/-- Fixture: a 401 response with an unparseable body. -/
def authFailResponse : HttpResponse := ⟨401, false, none⟩

/-- Fixture: an environment whose first response is a 401, whose login
succeeds, and whose retried request gets the success envelope. -/
def retryEnvOk : FetchEnv := ⟨authFailResponse, some "tok2", successResponse⟩

end Scraper

namespace Scraper

/-- C6: a slot passes the filter of check_slots_for_date if and only if it
occurs in the input list, its time of day lies inclusively between the
window start and the window end, and its is_available field passes the
availability test of the source (equality with 1); in particular a slot
whose availability test fails is excluded regardless of its time, and a
slot whose time of day equals either bound exactly is not excluded by the
time test. -/
theorem c6_filter_mem_iff (w : TimeWindow) (slots : List SlotDict) (s : SlotDict) :
    s ∈ filterSlots w slots ↔
      s ∈ slots ∧
        ((w.startSec : Int) ≤ s.time % 86400 ∧ s.time % 86400 ≤ (w.endSec : Int)) ∧
        pyEqOne s.is_available = true := by
  simp [filterSlots, List.mem_filter, is_slot_in_time_interval, Bool.and_eq_true,
    decide_eq_true_iff, and_assoc]

/-- C9 counterexample: a slot whose is_available field holds the JSON
boolean true, not the integer 1, is nevertheless kept by the filter,
because Python evaluates True == 1 to True; the claim says any value
other than the integer 1 is excluded. -/
theorem c9_bool_true_is_not_excluded :
    (⟨3600, some (.pbool true)⟩ : SlotDict).is_available ≠ some (PyVal.pint 1) ∧
    filterSlots wideWindow [⟨3600, some (.pbool true)⟩] =
      [⟨3600, some (.pbool true)⟩] := by
  decide

/-- C9 amended: a slot whose is_available field is absent, or holds a
value that is not Python-equal to the integer 1 (a string such as the
string 1, an integer other than 1, or the boolean false), is excluded
from the filtered result; the filter is a total function, so no error is
raised.  The boolean true is Python-equal to 1 and is not excluded. -/
theorem c9_not_python_one_excluded (w : TimeWindow) (slots : List SlotDict) (s : SlotDict)
    (h : pyEqOne s.is_available = false) :
    s ∉ filterSlots w slots := by
  simp [filterSlots, List.mem_filter, h]

/-- C9 witness: a slot carrying the string 1 is excluded. -/
theorem c9_not_python_one_excluded_witness :
    pyEqOne (some (PyVal.pstr "1")) = false ∧
    (⟨3600, some (.pstr "1")⟩ : SlotDict) ∉ filterSlots wideWindow [⟨3600, some (.pstr "1")⟩] :=
  ⟨by decide, c9_not_python_one_excluded wideWindow _ _ (by decide)⟩

/-- C1: when the first availability request comes back with status 401
and the re-login succeeds, check_slots_for_date issues exactly two
availability requests (the initial one plus exactly one retry), performs
exactly one persisted session-token update, and, when the retried
response is a parseable success envelope with a nonempty filtered slot
list, returns exactly the filtered slot list of that retried response. -/
theorem c1_single_retry_returns_retried_slots (w : TimeWindow) (s tok : String)
    (env : FetchEnv) (data : ApiData)
    (h1 : env.firstResponse.status = 401)
    (h2 : env.loginResult = some tok)
    (h3 : raiseForStatusFails env.retryResponse = false)
    (h4 : env.retryResponse.json = some data)
    (h5 : pyEqOne data.success = true)
    (h6 : filterSlots w data.available_slots ≠ []) :
    countSlotsRequests (check_slots_for_date w s env).events = 2 ∧
    countPersists (check_slots_for_date w s env).events = 1 ∧
    (check_slots_for_date w s env).result =
      .ok (some (filterSlots w data.available_slots)) := by
  have hauth : isAuthFailure env.firstResponse = true := by
    simp [isAuthFailure, h1]
  have hne : (filterSlots w data.available_slots).isEmpty = false := by
    simpa [List.isEmpty_iff] using h6
  simp [check_slots_for_date, hauth, h2, processResponse, h3, h4, h5, reportSlots, hne,
    countSlotsRequests, countPersists, isSlotsRequestEvent, isPersistEvent]

/-- C1 witness: concrete 401-then-success run. -/
theorem c1_single_retry_returns_retried_slots_witness :
    countSlotsRequests (check_slots_for_date wideWindow "s0" retryEnvOk).events = 2 ∧
    countPersists (check_slots_for_date wideWindow "s0" retryEnvOk).events = 1 ∧
    (check_slots_for_date wideWindow "s0" retryEnvOk).result = .ok (some [okSlot]) := by
  have h := c1_single_retry_returns_retried_slots wideWindow "s0" "tok2" retryEnvOk
    ⟨some (.pint 1), [okSlot]⟩ (by decide) rfl (by decide) rfl (by decide) (by decide)
  simpa [retryEnvOk, wideWindow, okSlot, successResponse, filterSlots,
    is_slot_in_time_interval, pyEqOne] using h

/-- C2 counterexample: both the first and the retried response are
classified as auth failures (the first by status 401, the retry by the
auth_error body substring under a 200 status), yet the fetch does not
terminate in an error: the retry is only guarded by raise_for_status, so
the substring-classified auth failure slips through and the run returns
the Python None of a success-0 envelope. -/
theorem c2_substring_auth_failure_on_retry_is_not_fatal :
    isAuthFailure authFailResponse = true ∧
    isAuthFailure ⟨200, true, some ⟨some (.pint 0), []⟩⟩ = true ∧
    (check_slots_for_date wideWindow "s0"
      ⟨authFailResponse, some "tok2", ⟨200, true, some ⟨some (.pint 0), []⟩⟩⟩).result =
      .ok none := by
  decide

/-- C2 amended: when the first response is classified as an auth failure,
the fetch terminates in an error whenever the re-login fails or the
retried response carries an HTTP error status (4xx or 5xx, which covers
the auth statuses 401 and 500); a retried response classified as an auth
failure only by the body substring under a non-error status is processed
as a normal response instead.  In every case at most two availability
requests are issued, so there is never a third attempt. -/
theorem c2_fatal_on_retry_failure_no_third_attempt (w : TimeWindow) (s : String)
    (env : FetchEnv)
    (h1 : isAuthFailure env.firstResponse = true)
    (h2 : env.loginResult = none ∨ raiseForStatusFails env.retryResponse = true) :
    (∃ e, (check_slots_for_date w s env).result = .error e) ∧
    countSlotsRequests (check_slots_for_date w s env).events ≤ 2 := by
  cases hl : env.loginResult with
  | none =>
      refine ⟨⟨.loginFailed, ?_⟩, ?_⟩ <;>
        simp [check_slots_for_date, h1, hl, countSlotsRequests, isSlotsRequestEvent]
  | some tok =>
      have hr : raiseForStatusFails env.retryResponse = true := by
        rcases h2 with h | h
        · rw [hl] at h; cases h
        · exact h
      refine ⟨⟨.httpError env.retryResponse.status, ?_⟩, ?_⟩ <;>
        simp [check_slots_for_date, h1, hl, processResponse, hr,
          countSlotsRequests, isSlotsRequestEvent]

/-- C2 witness: a 401 first response followed by a 401 retry yields an
error after exactly two requests. -/
theorem c2_fatal_on_retry_failure_no_third_attempt_witness :
    isAuthFailure authFailResponse = true ∧
    (∃ e, (check_slots_for_date wideWindow "s0"
      ⟨authFailResponse, some "tok2", authFailResponse⟩).result = .error e) ∧
    countSlotsRequests (check_slots_for_date wideWindow "s0"
      ⟨authFailResponse, some "tok2", authFailResponse⟩).events ≤ 2 :=
  ⟨by decide,
   c2_fatal_on_retry_failure_no_third_attempt wideWindow "s0"
     ⟨authFailResponse, some "tok2", authFailResponse⟩ (by decide) (Or.inr (by decide))⟩

/-- C3 counterexample: in a concrete auth-failure run with a successful
re-login, the availability requests sit at positions 0 and 2 of the event
trace and the only persisted session update sits at position 3, so the
external persistence of the renewed token happens after the retry
request, not before it as the claim states. -/
theorem c3_persist_happens_after_retry :
    requestIndices (check_slots_for_date wideWindow "s0" retryEnvOk).events = [0, 2] ∧
    persistIndices (check_slots_for_date wideWindow "s0" retryEnvOk).events = [3] ∧
    persistPrecedesRetry (check_slots_for_date wideWindow "s0" retryEnvOk).events = false := by
  decide

/-- C3 amended: in every run that detects an auth failure and re-logs in
successfully, the event order is: the initial request, then the
re-authentication, then the retry request carrying the renewed in-run
session, and only then the external persistence of the renewed token. -/
theorem c3_event_order (w : TimeWindow) (s tok : String) (env : FetchEnv)
    (h1 : isAuthFailure env.firstResponse = true)
    (h2 : env.loginResult = some tok) :
    (check_slots_for_date w s env).events =
      [.slotsRequest s, .loginAttempt, .slotsRequest tok, .persistSession tok] := by
  simp [check_slots_for_date, h1, h2]

/-- C3 witness: the event order at the concrete 401-then-success run. -/
theorem c3_event_order_witness :
    (check_slots_for_date wideWindow "s0" retryEnvOk).events =
      [.slotsRequest "s0", .loginAttempt, .slotsRequest "tok2", .persistSession "tok2"] :=
  c3_event_order wideWindow "s0" "tok2" retryEnvOk (by decide) rfl

/-- C4: the explicit-date branch of get_dates_to_check calls timestamp()
on a naive datetime, which Python interprets in the local timezone of the
machine, so on a machine one hour east of UTC the produced instant for
day 20188 is 3600 seconds before UTC midnight of that day and is not a
multiple of 86400; this contradicts the claim (and the comment and
docstring of the source) that every produced timestamp is 00:00:00 UTC of
its calendar day. -/
theorem c4_explicit_branch_uses_local_midnight :
    get_dates_to_check
      { checkSpecificDays := some [.valid 20188], checkDaysAhead := none,
        todayDays := 20188, tzOffset := 3600 } = [1744239600] ∧
    (1744239600 : Int) % 86400 ≠ 0 := by
  decide

/-- C5 counterexample: with no explicit date list and a non-integer day
count, get_dates_to_check returns the empty list, not the single-element
list containing UTC midnight of today as the claim states: the except
branch only logs and never reaches the today rule. -/
theorem c5_invalid_day_count_does_not_fall_through :
    get_dates_to_check
      { checkSpecificDays := none, checkDaysAhead := some .invalid,
        todayDays := 20000, tzOffset := 0 } = [] ∧
    get_dates_to_check
      { checkSpecificDays := none, checkDaysAhead := some .invalid,
        todayDays := 20000, tzOffset := 0 } ≠ [(86400 * 20000 : Int)] := by
  decide

/-- C5 amended: when the day-count setting is present but not a valid
integer and no explicit date list is configured, get_dates_to_check logs
the error and returns the empty sequence; it does not fall through to the
today rule, and no fatal error is raised. -/
theorem c5_invalid_day_count_yields_empty (cfg : DatesConfig)
    (h1 : cfg.checkSpecificDays = none)
    (h2 : cfg.checkDaysAhead = some DaysAheadEntry.invalid) :
    get_dates_to_check cfg = [] := by
  simp [get_dates_to_check, h1, h2]

/-- C5 witness: concrete invalid day count. -/
theorem c5_invalid_day_count_yields_empty_witness :
    get_dates_to_check
      { checkSpecificDays := none, checkDaysAhead := some .invalid,
        todayDays := 20000, tzOffset := 0 } = [] :=
  c5_invalid_day_count_yields_empty _ rfl rfl

/-- C10: when an explicit date list is configured and every entry of it
is malformed, get_dates_to_check returns the empty sequence (it stays in
the explicit-list branch and does not fall through to the day-count or
today rules), and consequently a main run with that configuration issues
zero availability requests and performs neither the notification nor the
disable action. -/
theorem c10_all_malformed_entries_empty_run (w : TimeWindow) (enabled : Bool)
    (cfg : DatesConfig) (entries : List DateEntry) (s0 : String)
    (envOf : Nat → FetchEnv) (send : SendOutcome)
    (h1 : cfg.checkSpecificDays = some entries)
    (h2 : ∀ e ∈ entries, e = DateEntry.malformed) :
    get_dates_to_check cfg = [] ∧
    (main w enabled cfg s0 envOf send).queries = 0 ∧
    (main w enabled cfg s0 envOf send).events = [] := by
  have hd : get_dates_to_check cfg = [] := by
    rw [get_dates_to_check, h1, List.filterMap_eq_nil_iff]
    intro e he
    rw [h2 e he]
  refine ⟨hd, ?_, ?_⟩ <;> cases enabled <;> simp [main, hd, processDates]

/-- C10 witness: a two-entry list of malformed dates. -/
theorem c10_all_malformed_entries_empty_run_witness :
    get_dates_to_check
      { checkSpecificDays := some [.malformed, .malformed], checkDaysAhead := none,
        todayDays := 20000, tzOffset := 0 } = [] ∧
    (main wideWindow true
      { checkSpecificDays := some [.malformed, .malformed], checkDaysAhead := none,
        todayDays := 20000, tzOffset := 0 }
      "s0" (fun _ => retryEnvOk) SendOutcome.ok).queries = 0 ∧
    (main wideWindow true
      { checkSpecificDays := some [.malformed, .malformed], checkDaysAhead := none,
        todayDays := 20000, tzOffset := 0 }
      "s0" (fun _ => retryEnvOk) SendOutcome.ok).events = [] :=
  c10_all_malformed_entries_empty_run wideWindow true _ [.malformed, .malformed] "s0"
    (fun _ => retryEnvOk) SendOutcome.ok rfl (by decide)

/-- Helper: a response satisfying processedAsNoSlots is processed by the
shared tail of check_slots_for_date to the Python None answer. -/
theorem processResponse_of_noSlots (w : TimeWindow) (r : HttpResponse)
    (h : processedAsNoSlots w r = true) :
    processResponse w r = .ok none := by
  rw [processedAsNoSlots] at h
  cases hj : r.json with
  | none => rw [hj] at h; simp at h
  | some data =>
      rw [hj] at h
      simp only [Bool.and_eq_true] at h
      obtain ⟨hr, hm⟩ := h
      have hr2 : raiseForStatusFails r = false := by simpa using hr
      cases hs : pyEqOne data.success with
      | false => simp [processResponse, hr2, hj, hs]
      | true =>
          rw [hs] at hm
          simp only [Bool.not_true, Bool.false_or] at hm
          simp [processResponse, hr2, hj, hs, reportSlots, hm]

/-- Helper: an environment satisfying envYieldsNoSlots makes
check_slots_for_date answer no slots, for every session. -/
theorem check_slots_result_of_noSlots (w : TimeWindow) (s : String) (env : FetchEnv)
    (h : envYieldsNoSlots w env = true) :
    (check_slots_for_date w s env).result = .ok none := by
  rw [envYieldsNoSlots] at h
  cases ha : isAuthFailure env.firstResponse with
  | false =>
      rw [ha] at h
      simp only [Bool.false_eq_true, if_false] at h
      simp [check_slots_for_date, ha, processResponse_of_noSlots w env.firstResponse h]
  | true =>
      rw [ha] at h
      simp only [if_true, Bool.and_eq_true, Option.isSome_iff_exists] at h
      obtain ⟨⟨tok, htok⟩, hp⟩ := h
      simp [check_slots_for_date, ha, htok, processResponse_of_noSlots w env.retryResponse hp]

/-- Helper: when every position of the response environment satisfies
envYieldsNoSlots, the per-date loop succeeds with an empty all_slots
mapping. -/
theorem processDates_result_of_noSlots (w : TimeWindow) (envOf : Nat → FetchEnv)
    (h : ∀ i, envYieldsNoSlots w (envOf i) = true) :
    ∀ (ds : List Int) (i : Nat) (s : String),
      (processDates w envOf ds i s).result = .ok [] := by
  intro ds
  induction ds with
  | nil => intro i s; rfl
  | cons d rest ih =>
      intro i s
      have hres := check_slots_result_of_noSlots w s (envOf i) (h i)
      simp [processDates, hres,
        ih (i + 1) (check_slots_for_date w s (envOf i)).finalSession, Except.map]

/-- C7: when every date's response environment yields no qualifying slots
(an empty or fully filtered-out slot list or a non-success envelope,
possibly after a successful auth-renewal retry), the aggregated result of
the main run is empty, the run returns normally, and neither the
notification nor the disabling of the scraping flag is ever performed. -/
theorem c7_empty_aggregate_no_notification (w : TimeWindow) (enabled : Bool)
    (cfg : DatesConfig) (s0 : String) (envOf : Nat → FetchEnv) (send : SendOutcome)
    (h : ∀ i, envYieldsNoSlots w (envOf i) = true) :
    (main w enabled cfg s0 envOf send).aggregated = [] ∧
    (main w enabled cfg s0 envOf send).events = [] ∧
    (main w enabled cfg s0 envOf send).result = .ok () := by
  cases enabled with
  | false => simp [main]
  | true =>
      have hres := processDates_result_of_noSlots w envOf h (get_dates_to_check cfg) 0 s0
      simp [main, hres]

/-- C7 witness: a run over two dates whose responses both carry a
success-0 envelope. -/
theorem c7_empty_aggregate_no_notification_witness :
    (main wideWindow true
      { checkSpecificDays := some [.valid 20188, .valid 20189], checkDaysAhead := none,
        todayDays := 20188, tzOffset := 0 }
      "s0" (fun _ => ⟨noSlotsResponse, none, noSlotsResponse⟩) SendOutcome.ok).aggregated
        = [] ∧
    (main wideWindow true
      { checkSpecificDays := some [.valid 20188, .valid 20189], checkDaysAhead := none,
        todayDays := 20188, tzOffset := 0 }
      "s0" (fun _ => ⟨noSlotsResponse, none, noSlotsResponse⟩) SendOutcome.ok).events
        = [] ∧
    (main wideWindow true
      { checkSpecificDays := some [.valid 20188, .valid 20189], checkDaysAhead := none,
        todayDays := 20188, tzOffset := 0 }
      "s0" (fun _ => ⟨noSlotsResponse, none, noSlotsResponse⟩) SendOutcome.ok).result
        = .ok () := by
  refine c7_empty_aggregate_no_notification wideWindow true _ "s0"
    (fun _ => ⟨noSlotsResponse, none, noSlotsResponse⟩) SendOutcome.ok (fun i => ?_)
  show envYieldsNoSlots wideWindow
    (⟨noSlotsResponse, none, noSlotsResponse⟩ : FetchEnv) = true
  decide

/-- C8: in every run whose aggregated result is nonempty, a failed
notification send does not abort the run (the send helper swallows every
transport failure), and the one-shot disable of the scraping flag is
still performed, after the notification attempt: the run returns
normally with the event sequence notify-then-disable. -/
theorem c8_send_failure_still_disables (w : TimeWindow) (enabled : Bool)
    (cfg : DatesConfig) (s0 : String) (envOf : Nat → FetchEnv) (send : SendOutcome)
    (h1 : (main w enabled cfg s0 envOf send).aggregated ≠ [])
    (h2 : send_telegram_notification send = false) :
    (main w enabled cfg s0 envOf send).result = .ok () ∧
    (main w enabled cfg s0 envOf send).events =
      [MainEvent.notify false, MainEvent.disableScraping] := by
  cases enabled with
  | false => simp [main] at h1
  | true =>
      revert h1
      rw [main]
      simp only [if_true]
      cases hr : (processDates w envOf (get_dates_to_check cfg) 0 s0).result with
      | error e => intro h1; simp at h1
      | ok allSlots =>
          cases allSlots with
          | nil => intro h1; simp at h1
          | cons p ps => intro h1; simp [h2]

/-- C8 witness: one date with a qualifying slot and a send that raises. -/
theorem c8_send_failure_still_disables_witness :
    (main wideWindow true
      { checkSpecificDays := none, checkDaysAhead := none, todayDays := 20188,
        tzOffset := 0 }
      "s0" (fun _ => ⟨successResponse, none, successResponse⟩) SendOutcome.exn).result
        = .ok () ∧
    (main wideWindow true
      { checkSpecificDays := none, checkDaysAhead := none, todayDays := 20188,
        tzOffset := 0 }
      "s0" (fun _ => ⟨successResponse, none, successResponse⟩) SendOutcome.exn).events
        = [MainEvent.notify false, MainEvent.disableScraping] :=
  c8_send_failure_still_disables wideWindow true _ "s0"
    (fun _ => ⟨successResponse, none, successResponse⟩) SendOutcome.exn
    (by decide) (by decide)

end Scraper
